import Mathlib

/-!
Verification of the GeoStaff attendance and leave-management client.

This file gives a shallow embedding of the behavioral logic of the
front-end source files (the attendance capture widget, the leave service,
the leave form handler, the shared HTTP response interceptor, the
authentication service and the device-identifier helper) and proves or
refutes the frozen claims about them.

Conventions:
* Calendar dates are day numbers (days since 1970-01-01); the JavaScript
  `Date.getDay` weekday (0 = Sunday .. 6 = Saturday) of day `d` is
  `(d + 4) % 7` since 1970-01-01 was a Thursday.
* Timestamps are integer milliseconds; JavaScript numeric division is
  modelled over `ℚ`.
* Browser `localStorage` is modelled by small records holding exactly the
  keys the code under study reads or writes; `null` is `Option.none` and
  JavaScript string falsiness (`null` or `""`) is spelled out.
-/

namespace GeoStaff

/-! ## Leave-day counting (Frontend/src/services/leaveService.js, calculateLeaveDays)

The source iterates a mutable date `current` from `start` while
`current <= end`, incrementing `days` whenever `current.getDay()` is
neither 0 (Sunday) nor 6 (Saturday), and stepping `current` forward one
calendar day. The loop body runs exactly `end + 1 - start` times when
`start ≤ end` and zero times otherwise, so the loop is encoded as
structural recursion on that iteration count (truncated `Nat` subtraction
yields 0 for a reversed range, exactly as the `while` guard does). -/

/-- JavaScript `Date.getDay` for a day number `d` (days since the epoch):
0 = Sunday, 6 = Saturday. -/
def jsGetDay (d : Nat) : Nat := (d + 4) % 7

/-- One loop iteration per remaining day: `leaveDaysIter n current` runs the
body of the `while (current <= end)` loop `n` times starting at day
`current`, accumulating the weekday count. -/
def leaveDaysIter : Nat → Nat → Nat
  | 0, _ => 0
  | n + 1, current =>
      (if jsGetDay current ≠ 0 ∧ jsGetDay current ≠ 6 then 1 else 0) +
        leaveDaysIter n (current + 1)

/-- `leaveService.calculateLeaveDays(startDate, endDate)`: count the days of
the inclusive range that fall on a weekday. -/
def calculateLeaveDays (startDate endDate : Nat) : Nat :=
  leaveDaysIter (endDate + 1 - startDate) startDate

/-- The loop computes exactly the weekday count of the `n` consecutive days
starting at `c`. -/
theorem leaveDaysIter_eq_countP (n : Nat) :
    ∀ c : Nat, leaveDaysIter n c =
      (List.range' c n).countP (fun d => decide (jsGetDay d ≠ 0 ∧ jsGetDay d ≠ 6)) := by
  induction n with
  | zero => intro c; rfl
  | succ m ih =>
      intro c
      rw [List.range'_succ, List.countP_cons]
      by_cases hc : jsGetDay c ≠ 0 ∧ jsGetDay c ≠ 6 <;>
        simp [leaveDaysIter, ih (c + 1), hc, Nat.add_comm]

/-! ## Initial attendance fetch retry (unnamed/part_001, fetchTodayAttendance)

`fetchTodayAttendance` catches a failed fetch, sets an error message, and
schedules `fetchTodayAttendance` again via `setTimeout(..., 2000)`. Every
failed call therefore schedules exactly one further call; nothing bounds
the number of retries. `fetchCalls outcomes` counts the fetch calls that
occur when `outcomes` lists the success/failure results of consecutive
calls (a successful call schedules no retry and ends the chain). -/

/-- The fixed `setTimeout` retry delay of `fetchTodayAttendance`, in
milliseconds. -/
def fetchRetryDelayMs : Nat := 2000

/-- Number of fetch calls performed given the outcome of each successive
call (`true` = success). The first call always happens; a failure schedules
exactly one retry. -/
def fetchCalls : List Bool → Nat
  | [] => 0
  | ok :: rest => 1 + if ok then 0 else fetchCalls rest

/-! ## Apply-leave form (Frontend/src/pages/Dashboard.jsx, handleApplyLeave)

The form state holds `startDate`/`endDate` (empty string from the date
inputs is `none`), a free-text `reason`, a `leaveType`, and the derived
`calculatedDays` that a `useEffect` keeps equal to
`calculateLeaveDays(startDate, endDate)` when both dates are set and 0
otherwise. `handleApplyLeave` rejects before any network call when a
required field is missing (`!startDate || !endDate || !reason.trim()`) or
when `calculatedDays <= 0`; only otherwise does it call
`leaveService.applyLeave`. -/

structure LeaveForm where
  startDate : Option Nat
  endDate : Option Nat
  reason : String
  leaveType : String
deriving DecidableEq

/-- The `calculatedDays` state variable, as maintained by the
`useEffect` on `[startDate, endDate]`. -/
def calculatedDays (f : LeaveForm) : Nat :=
  match f.startDate, f.endDate with
  | some s, some e => calculateLeaveDays s e
  | _, _ => 0

/-- Result of `handleApplyLeave`: either blocked client-side with an error
message, or an `applyLeave` network request with the wire payload. -/
inductive ApplyLeaveResult where
  | blocked (errorMsg : String)
  | request (leaveType : String) (startDate endDate : Nat) (reason : String)
deriving DecidableEq

def handleApplyLeave (f : LeaveForm) : ApplyLeaveResult :=
  match f.startDate, f.endDate with
  | some s, some e =>
      if f.reason.trim = "" then .blocked "Please fill all required fields"
      else if calculatedDays f ≤ 0 then .blocked "Invalid date range"
      else .request f.leaveType s e f.reason
  | _, _ => .blocked "Please fill all required fields"

def issuesLeaveRequest : ApplyLeaveResult → Bool
  | .blocked _ => false
  | .request .. => true

/-! ## HTTP response interceptor (Frontend/src/services/api.js)

All four domain service adapters (auth, attendance, leave, health) import
the single `api` axios instance, so this interceptor runs for every
response with an error status regardless of which adapter issued the
request. The credential store is the pair of `localStorage` entries
`token` and `user`. -/

structure CredStore where
  token : Option String
  user : Option String
deriving DecidableEq

/-- Outcome of the response error interceptor for a response with HTTP
status `status` and body `respData`: the credential store afterwards, the
forced navigation target (`window.location.href` assignment) if any, and
the console diagnostics emitted. -/
structure InterceptOutcome where
  store : CredStore
  navigate : Option String
  logs : List String
deriving DecidableEq

def responseInterceptor (status : Nat) (store : CredStore) (respData : String) :
    InterceptOutcome :=
  if status = 401 then
    { store := { token := none, user := none }, navigate := some "/", logs := [] }
  else if status = 403 then
    { store := store, navigate := none, logs := ["Access denied"] }
  else if 500 ≤ status then
    { store := store, navigate := none, logs := ["Server error: " ++ respData] }
  else
    { store := store, navigate := none, logs := [] }

/-! ## Device identifier (Frontend/src/services/attendanceService.js, getDeviceId)

`getDeviceId` reads `localStorage.getItem('device_id')`; if the result is
falsy (`null` or the empty string) it generates
`device_${Date.now()}_${Math.random().toString(36).substr(2, 9)}`, stores
it, and returns it; otherwise it returns the stored value unchanged. The
nondeterministic inputs (`Date.now()` and the random suffix) are explicit
parameters. -/

structure DeviceStore where
  device_id : Option String
deriving DecidableEq

def genDeviceId (now : Nat) (rnd : String) : String :=
  "device_" ++ toString now ++ "_" ++ rnd

def getDeviceId (st : DeviceStore) (now : Nat) (rnd : String) :
    String × DeviceStore :=
  match st.device_id with
  | none =>
      let g := genDeviceId now rnd
      (g, ⟨some g⟩)
  | some id =>
      if id = "" then
        let g := genDeviceId now rnd
        (g, ⟨some g⟩)
      else (id, st)

theorem genDeviceId_ne_empty (now : Nat) (rnd : String) :
    genDeviceId now rnd ≠ "" := by
  intro h
  have h1 : (genDeviceId now rnd).length = 0 := by rw [h]; rfl
  unfold genDeviceId at h1
  rw [String.length_append, String.length_append, String.length_append] at h1
  have h2 : ("device_" : String).length = 7 := rfl
  omega

/-! ## OTP verification (unnamed/part_000, authService.verifyOTP)

After the `POST /auth/verify-otp` response arrives, the service stores
`response.data.access_token` under `token` and
`JSON.stringify(response.data.user)` under `user` — but only inside
`if (response.data.access_token)`, i.e. only when that field is truthy
(present and not the empty string). In every case it returns
`response.data` itself. The `user` field is modelled by its serialized
string. -/

structure VerifyResponse where
  access_token : Option String
  user : String
  message : String
deriving DecidableEq

/-- JavaScript truthiness of an optional string. -/
def jsTruthy : Option String → Bool
  | none => false
  | some s => decide (s ≠ "")

def verifyOTP (st : CredStore) (resp : VerifyResponse) :
    CredStore × VerifyResponse :=
  let st2 :=
    if jsTruthy resp.access_token then
      { token := resp.access_token, user := some resp.user }
    else st
  (st2, resp)

/-! ## Attendance capture widget (unnamed/part_001, AttendanceWidget)

View state relevant to the submission handlers, and the externally visible
effects a handler run produces. `location` is the resolved geolocation fix
(or `null`), `capturedPhoto` the data-URL of the captured photo (or
`null`). A handler first checks its guards; only past both guards does it
issue the network request, whose outcome (`outcome`) then drives the state
updates: `setError('')`/`setSuccess('')` before the request, then on
success `setSuccess(msg)`, `setCapturedPhoto(null)`, `setNotes('')` and a
`setTimeout(fetchTodayAttendance, 500)`; on failure
`setError(err.response?.data?.detail || fallback)`. -/

structure Location where
  latitude : ℚ
  longitude : ℚ
  accuracy : ℚ
deriving DecidableEq

structure WidgetState where
  location : Option Location
  capturedPhoto : Option String
  notes : String
  workStatus : String
  error : String
  success : String
deriving DecidableEq

/-- Server outcome of a submission request: `ok message` on HTTP success,
`err detail` on failure (`detail` is `err.response?.data?.detail`, absent
for transport errors). -/
inductive CheckOutcome where
  | ok (message : String)
  | err (detail : Option String)
deriving DecidableEq

/-- Externally visible effects of one handler run. -/
inductive Effect where
  | checkInRequest (latitude longitude accuracy : ℚ)
      (workStatus deviceId photoUrl : String) (notes : Option String)
  | checkOutRequest (latitude longitude accuracy : ℚ)
      (deviceId : String) (notes : Option String)
  | scheduleRefetch (delayMs : Nat)
deriving DecidableEq

/-- `notes || null`: the empty string is sent as `null`. -/
def notesOrNull (s : String) : Option String :=
  if s = "" then none else some s

def handleCheckIn (s : WidgetState) (deviceId : String) (outcome : CheckOutcome) :
    WidgetState × List Effect :=
  match s.location with
  | none =>
      ({ s with error := "Location not available. Please enable location services." }, [])
  | some loc =>
      match s.capturedPhoto with
      | none => ({ s with error := "Photo is required. Please capture a photo." }, [])
      | some photo =>
          let req := Effect.checkInRequest loc.latitude loc.longitude loc.accuracy
            s.workStatus deviceId photo (notesOrNull s.notes)
          match outcome with
          | .ok msg =>
              ({ s with error := "", success := msg, capturedPhoto := none, notes := "" },
               [req, Effect.scheduleRefetch 500])
          | .err detail =>
              ({ s with error := detail.getD "Failed to check in", success := "" }, [req])

def handleCheckOut (s : WidgetState) (deviceId : String) (outcome : CheckOutcome) :
    WidgetState × List Effect :=
  match s.location with
  | none =>
      ({ s with error := "Location not available. Please enable location services." }, [])
  | some loc =>
      match s.capturedPhoto with
      | none => ({ s with error := "Photo is required. Please capture a photo." }, [])
      | some _ =>
          let req := Effect.checkOutRequest loc.latitude loc.longitude loc.accuracy
            deviceId (notesOrNull s.notes)
          match outcome with
          | .ok msg =>
              ({ s with error := "", success := msg, capturedPhoto := none, notes := "" },
               [req, Effect.scheduleRefetch 500])
          | .err detail =>
              ({ s with error := detail.getD "Failed to check out", success := "" }, [req])

/-- Whether an effect list contains a check-in or check-out network
request. -/
def issuesRequest (effs : List Effect) : Bool :=
  effs.any fun e =>
    match e with
    | .checkInRequest .. => true
    | .checkOutRequest .. => true
    | .scheduleRefetch _ => false

/-! ## Hours worked (unnamed/part_001, calculateHoursWorked)

`calculateHoursWorked` returns `'0.0'` when there is no check-in event;
otherwise it subtracts the check-in timestamp from the check-out timestamp
(or from `new Date()` when still checked in), divides by `1000 * 60 * 60`,
and renders with `toFixed(1)`. Timestamps are integer milliseconds and the
rendered value is modelled as the rational rounded to one decimal
place. -/

/-- `x.toFixed(1)` as a rational: round to the nearest tenth. -/
def toFixed1 (q : ℚ) : ℚ := (round (q * 10) : ℤ) / 10

def calculateHoursWorked (check_in check_out : Option ℤ) (now : ℤ) : ℚ :=
  match check_in with
  | none => 0
  | some checkInTime =>
      let currentTime :=
        match check_out with
        | some co => co
        | none => now
      toFixed1 (((currentTime - checkInTime : ℤ) : ℚ) / (1000 * 60 * 60))

/-! ## Camera capture surface (unnamed/part_001)

The camera modal owns a `MediaStream` attached to the video element.
`tracksLive` records whether the acquired stream still has live tracks —
the scarce platform resource the spec requires to be released on every
exit path. `stopCamera` stops every track when a stream is attached
(`videoRef.current.srcObject` truthy). `closeCameraModal` (the cancel
path) stops the camera and closes the modal; `handleCapturePhoto` (the
success path, enabled only while `cameraActive`) stores the photo, stops
the camera and closes the modal. The mount `useEffect` of the component
(lines 77-80) returns no cleanup function and no other unmount hook
exists, so component teardown runs no code touching the stream:
`unmountCleanup` is the identity on the resource state. -/

structure CamState where
  showCameraModal : Bool
  cameraActive : Bool
  streamAttached : Bool
  tracksLive : Bool
  capturedPhoto : Option String
deriving DecidableEq

def stopCamera (s : CamState) : CamState :=
  if s.streamAttached then { s with tracksLive := false, cameraActive := false } else s

def closeCameraModal (s : CamState) : CamState :=
  { stopCamera s with showCameraModal := false }

def handleCapturePhoto (s : CamState) (photo : String) : CamState :=
  if s.cameraActive then
    { stopCamera { s with capturedPhoto := some photo } with showCameraModal := false }
  else s

/-- `openCameraModal`: show the modal, then acquire the stream; on grant the
stream is attached with live tracks and the camera becomes active, on
denial the modal is closed again with no stream ever acquired. -/
def openCameraModal (s : CamState) (granted : Bool) : CamState :=
  let s1 := { s with showCameraModal := true, cameraActive := false }
  if granted then
    { s1 with streamAttached := true, tracksLive := true, cameraActive := true }
  else
    { s1 with showCameraModal := false, cameraActive := false }

/-- Component teardown: the mount effect registers no cleanup, so no
component code runs at unmount and the platform resource state is
untouched. -/
def unmountCleanup (s : CamState) : CamState := s

/-! ## Claims -/

/-- C1: For every check-in or check-out submission attempt, if the
geolocation fix is absent or no photo has been captured, the handler sets
an error message and returns without issuing any network request; a
checkIn/checkOut request is issued only when both a location and a
captured photo are present. -/
theorem check_guard_blocks_without_location_or_photo
    (s : WidgetState) (dev : String) (o : CheckOutcome) :
    issuesRequest (handleCheckIn s dev o).2 = (s.location.isSome && s.capturedPhoto.isSome) ∧
    issuesRequest (handleCheckOut s dev o).2 = (s.location.isSome && s.capturedPhoto.isSome) ∧
    (s.location = none ∨ s.capturedPhoto = none →
      (handleCheckIn s dev o).2 = [] ∧ (handleCheckIn s dev o).1.error ≠ "" ∧
      (handleCheckOut s dev o).2 = [] ∧ (handleCheckOut s dev o).1.error ≠ "") := by
  rcases hl : s.location with _ | loc <;> rcases hp : s.capturedPhoto with _ | p <;>
    rcases o with msg | dtl <;>
    simp [handleCheckIn, handleCheckOut, issuesRequest, hl, hp]

/-- C1 witness: with no location and no photo, both handlers produce no
effect and set a nonempty error. -/
theorem check_guard_witness :
    (handleCheckIn ⟨none, none, "", "office", "", ""⟩ "dev" (.ok "m")).2 = [] ∧
    (handleCheckIn ⟨none, none, "", "office", "", ""⟩ "dev" (.ok "m")).1.error ≠ "" ∧
    (handleCheckOut ⟨none, none, "", "office", "", ""⟩ "dev" (.ok "m")).2 = [] ∧
    (handleCheckOut ⟨none, none, "", "office", "", ""⟩ "dev" (.ok "m")).1.error ≠ "" :=
  (check_guard_blocks_without_location_or_photo
    ⟨none, none, "", "office", "", ""⟩ "dev" (.ok "m")).2.2 (Or.inl rfl)

/-- C2: the claim demands that every exit path of the camera capture
surface — cancel, successful capture, and component teardown — stops the
acquired stream. Cancel and capture do stop it, but the component
registers no unmount cleanup, so teardown while the stream is live leaves
the camera stream acquired: evaluated here at the streaming state. -/
theorem camera_unmount_leaves_stream_live :
    (closeCameraModal ⟨true, true, true, true, none⟩).tracksLive = false ∧
    (handleCapturePhoto ⟨true, true, true, true, none⟩ "ph").tracksLive = false ∧
    (unmountCleanup ⟨true, true, true, true, none⟩).tracksLive = true :=
  ⟨rfl, rfl, rfl⟩

/-- C3 counterexample: the claim says the workflow never performs more
than one automatic retry, i.e. at most two fetch calls ever occur; but
with two consecutive failures three calls occur. -/
theorem fetch_retry_more_than_once :
    ¬ ∀ outcomes : List Bool, fetchCalls outcomes ≤ 2 := fun h =>
  absurd (h [false, false, true]) (by decide)

/-- C3 amended: every failed fetch schedules exactly one further fetch
after the fixed 2000 ms delay, so the fetch is retried indefinitely until
one succeeds: k consecutive failures followed by a success produce k + 1
fetch calls in total. -/
theorem fetch_retries_until_success (k : Nat) :
    fetchCalls (List.replicate k false ++ [true]) = k + 1 ∧ fetchRetryDelayMs = 2000 := by
  refine ⟨?_, rfl⟩
  induction k with
  | zero => rfl
  | succ m ih =>
      rw [List.replicate_succ, List.cons_append]
      have hstep : fetchCalls (false :: (List.replicate m false ++ [true]))
          = 1 + fetchCalls (List.replicate m false ++ [true]) := by
        simp [fetchCalls]
      rw [hstep, ih]
      omega

/-- C4: for start ≤ end, calculateLeaveDays equals the number of calendar
days in the inclusive range whose weekday is neither Saturday nor
Sunday. -/
theorem calculateLeaveDays_counts_weekdays (s e : Nat) (h : s ≤ e) :
    calculateLeaveDays s e =
      (List.range' s (e + 1 - s)).countP
        (fun d => decide (jsGetDay d ≠ 0 ∧ jsGetDay d ≠ 6)) :=
  leaveDaysIter_eq_countP (e + 1 - s) s

/-- C4 witness: 2024-01-01 (day 19723, a Monday) through 2024-01-07 (day
19729, a Sunday) yields 5 weekdays. -/
theorem calculateLeaveDays_weekday_witness :
    19723 ≤ 19729 ∧ calculateLeaveDays 19723 19729 = 5 :=
  ⟨by decide,
   (calculateLeaveDays_counts_weekdays 19723 19729 (by decide)).trans (by decide)⟩

/-- C5: for start > end, calculateLeaveDays returns 0, and the apply-leave
form blocks submission (issuing no network call) whenever the computed day
count is ≤ 0. -/
theorem calculateLeaveDays_reversed_range_blocked (s e : Nat) (h : e < s) :
    calculateLeaveDays s e = 0 ∧
    ∀ f : LeaveForm, calculatedDays f ≤ 0 →
      issuesLeaveRequest (handleApplyLeave f) = false := by
  constructor
  · unfold calculateLeaveDays
    have h0 : e + 1 - s = 0 := by omega
    rw [h0]
    rfl
  · intro f hf
    rcases hs : f.startDate with _ | sd
    · simp [handleApplyLeave, hs, issuesLeaveRequest]
    · rcases he : f.endDate with _ | ed
      · simp [handleApplyLeave, hs, he, issuesLeaveRequest]
      · have h0 : calculatedDays f = 0 := Nat.le_zero.mp hf
        by_cases hr : f.reason.trim = "" <;>
          simp [handleApplyLeave, hs, he, hr, h0, issuesLeaveRequest]

/-- C5 witness: the reversed range (10, 3) counts 0 days and the filled
form for it is blocked with no request. -/
theorem applyLeave_blocked_witness :
    calculateLeaveDays 10 3 = 0 ∧
    issuesLeaveRequest (handleApplyLeave ⟨some 10, some 3, "trip", "casual"⟩) = false :=
  ⟨(calculateLeaveDays_reversed_range_blocked 10 3 (by decide)).1,
   (calculateLeaveDays_reversed_range_blocked 10 3 (by decide)).2
     ⟨some 10, some 3, "trip", "casual"⟩ (by decide)⟩

/-- C6: a 401 response clears the stored bearer token and user profile and
navigates to "/", for every prior store state; a 403 or ≥ 500 response
only logs diagnostics and leaves stored credentials unchanged with no
navigation. -/
theorem responseInterceptor_behavior (st : CredStore) (d : String) :
    ((responseInterceptor 401 st d).store = ⟨none, none⟩ ∧
     (responseInterceptor 401 st d).navigate = some "/") ∧
    ∀ s : Nat, s = 403 ∨ 500 ≤ s →
      (responseInterceptor s st d).store = st ∧
      (responseInterceptor s st d).navigate = none ∧
      (responseInterceptor s st d).logs ≠ [] := by
  refine ⟨⟨rfl, rfl⟩, ?_⟩
  rintro s (rfl | hs)
  · exact ⟨rfl, rfl, by simp [responseInterceptor]⟩
  · have h1 : s ≠ 401 := by omega
    have h2 : s ≠ 403 := by omega
    simp [responseInterceptor, h1, h2, hs]

/-- C6 witness: instantiated at a populated store, at status 401 and at
status 503. -/
theorem responseInterceptor_witness :
    ((responseInterceptor 401 ⟨some "tok", some "usr"⟩ "body").store = ⟨none, none⟩ ∧
     (responseInterceptor 401 ⟨some "tok", some "usr"⟩ "body").navigate = some "/") ∧
    ((responseInterceptor 503 ⟨some "tok", some "usr"⟩ "body").store = ⟨some "tok", some "usr"⟩ ∧
     (responseInterceptor 503 ⟨some "tok", some "usr"⟩ "body").navigate = none ∧
     (responseInterceptor 503 ⟨some "tok", some "usr"⟩ "body").logs ≠ []) :=
  ⟨(responseInterceptor_behavior ⟨some "tok", some "usr"⟩ "body").1,
   (responseInterceptor_behavior ⟨some "tok", some "usr"⟩ "body").2 503
     (Or.inr (by decide))⟩

/-- Rendering to one decimal place: the rendered value times ten is an
integer. -/
theorem toFixed1_den (q : ℚ) : (toFixed1 q * 10).den = 1 := by
  unfold toFixed1
  rw [div_mul_cancel₀]
  · exact Rat.den_intCast _
  · norm_num

/-- C7: for every attendance record with a check-in event, hours worked is
the elapsed time between the check-in timestamp and the check-out
timestamp if present, else the current time, converted to hours and
rendered to one decimal place. -/
theorem calculateHoursWorked_formula (ci : ℤ) (co : Option ℤ) (now : ℤ) :
    calculateHoursWorked (some ci) co now
      = toFixed1 (((co.getD now - ci : ℤ) : ℚ) / (1000 * 60 * 60)) ∧
    (calculateHoursWorked (some ci) co now * 10).den = 1 := by
  refine ⟨?_, ?_⟩
  · cases co <;> rfl
  · cases co <;> exact toFixed1_den _

/-- C8: after a successful check-in or check-out submission, the captured
photo is reset to null, the notes field to the empty string, and a
re-fetch of the day attendance status is scheduled after the fixed 500 ms
delay. -/
theorem check_success_resets_and_schedules_refetch
    (s : WidgetState) (dev msg : String)
    (hl : s.location.isSome = true) (hp : s.capturedPhoto.isSome = true) :
    ((handleCheckIn s dev (.ok msg)).1.capturedPhoto = none ∧
     (handleCheckIn s dev (.ok msg)).1.notes = "" ∧
     Effect.scheduleRefetch 500 ∈ (handleCheckIn s dev (.ok msg)).2) ∧
    ((handleCheckOut s dev (.ok msg)).1.capturedPhoto = none ∧
     (handleCheckOut s dev (.ok msg)).1.notes = "" ∧
     Effect.scheduleRefetch 500 ∈ (handleCheckOut s dev (.ok msg)).2) := by
  rcases hl2 : s.location with _ | loc
  · rw [hl2] at hl; simp at hl
  · rcases hp2 : s.capturedPhoto with _ | p
    · rw [hp2] at hp; simp at hp
    · simp [handleCheckIn, handleCheckOut, hl2, hp2]

/-- C8 witness: a ready state submitting successfully resets photo and
notes and schedules the 500 ms re-fetch, for both handlers. -/
theorem check_success_witness :
    ((handleCheckIn ⟨some ⟨1, 2, 3⟩, some "ph", "n", "office", "", ""⟩ "dev"
        (.ok "done")).1.capturedPhoto = none ∧
     (handleCheckIn ⟨some ⟨1, 2, 3⟩, some "ph", "n", "office", "", ""⟩ "dev"
        (.ok "done")).1.notes = "" ∧
     Effect.scheduleRefetch 500 ∈
       (handleCheckIn ⟨some ⟨1, 2, 3⟩, some "ph", "n", "office", "", ""⟩ "dev"
        (.ok "done")).2) ∧
    ((handleCheckOut ⟨some ⟨1, 2, 3⟩, some "ph", "n", "office", "", ""⟩ "dev"
        (.ok "done")).1.capturedPhoto = none ∧
     (handleCheckOut ⟨some ⟨1, 2, 3⟩, some "ph", "n", "office", "", ""⟩ "dev"
        (.ok "done")).1.notes = "" ∧
     Effect.scheduleRefetch 500 ∈
       (handleCheckOut ⟨some ⟨1, 2, 3⟩, some "ph", "n", "office", "", ""⟩ "dev"
        (.ok "done")).2) :=
  check_success_resets_and_schedules_refetch
    ⟨some ⟨1, 2, 3⟩, some "ph", "n", "office", "", ""⟩ "dev" "done" rfl rfl

/-- C9: the first getDeviceId call with no stored device_id generates an
identifier and writes it to storage, and every subsequent call returns
that same stored value without changing the store. -/
theorem getDeviceId_idempotent_after_first (st : DeviceStore) (n : Nat) (r : String)
    (h : st.device_id = none) :
    (getDeviceId st n r).2.device_id = some (getDeviceId st n r).1 ∧
    ∀ (n' : Nat) (r' : String),
      getDeviceId (getDeviceId st n r).2 n' r'
        = ((getDeviceId st n r).1, (getDeviceId st n r).2) := by
  have hfst : getDeviceId st n r = (genDeviceId n r, ⟨some (genDeviceId n r)⟩) := by
    simp [getDeviceId, h]
  refine ⟨by rw [hfst], ?_⟩
  intro n' r'
  rw [hfst]
  simp [getDeviceId, genDeviceId_ne_empty n r]

/-- C9 witness: from an empty store, the generated id is stored and a
second call with different nondeterministic inputs returns it with the
store unchanged. -/
theorem getDeviceId_witness :
    (getDeviceId ⟨none⟩ 0 "x").2.device_id = some (getDeviceId ⟨none⟩ 0 "x").1 ∧
    getDeviceId (getDeviceId ⟨none⟩ 0 "x").2 1 "y"
      = ((getDeviceId ⟨none⟩ 0 "x").1, (getDeviceId ⟨none⟩ 0 "x").2) :=
  ⟨(getDeviceId_idempotent_after_first ⟨none⟩ 0 "x" rfl).1,
   (getDeviceId_idempotent_after_first ⟨none⟩ 0 "x" rfl).2 1 "y"⟩

/-- C10: verifyOTP writes the token and user storage entries exactly when
the response carries a truthy access_token, leaves them unchanged
otherwise, and always returns the response body unmodified. -/
theorem verifyOTP_storage_iff_token (st : CredStore) (resp : VerifyResponse) :
    (verifyOTP st resp).2 = resp ∧
    (jsTruthy resp.access_token = true →
      (verifyOTP st resp).1 = ⟨resp.access_token, some resp.user⟩) ∧
    (jsTruthy resp.access_token = false → (verifyOTP st resp).1 = st) := by
  refine ⟨rfl, ?_, ?_⟩ <;> intro h <;> simp [verifyOTP, h]

/-- C10 witness: a truthy token is stored with the user profile, a missing
token leaves the store untouched, and the body passes through. -/
theorem verifyOTP_witness :
    (verifyOTP ⟨none, none⟩ ⟨some "tok", "usr", "ok"⟩).1 = ⟨some "tok", some "usr"⟩ ∧
    (verifyOTP ⟨some "t0", some "u0"⟩ ⟨none, "usr", "ok"⟩).1 = ⟨some "t0", some "u0"⟩ ∧
    (verifyOTP ⟨none, none⟩ ⟨some "tok", "usr", "ok"⟩).2 = ⟨some "tok", "usr", "ok"⟩ :=
  ⟨(verifyOTP_storage_iff_token ⟨none, none⟩ ⟨some "tok", "usr", "ok"⟩).2.1 rfl,
   (verifyOTP_storage_iff_token ⟨some "t0", some "u0"⟩ ⟨none, "usr", "ok"⟩).2.2 rfl,
   (verifyOTP_storage_iff_token ⟨none, none⟩ ⟨some "tok", "usr", "ok"⟩).1⟩

end GeoStaff
